import Mathlib

/-!
Shallow embedding of the OAuth2 credential lifecycle manager of the `sup`
CLI: the class `OAuthSupersetAuth` in `src/preset_cli/auth/oauth_superset.py`
and the auth factory `create_superset_auth` in `src/preset_cli/auth/factory.py`.

Time is embedded as integer seconds; `datetime.now(tz=UTC)` is modeled by an
environment-supplied clock read at each call site, indexed by how many reads
happened so far.  The two HTTP endpoints are modeled as environment-supplied
response sequences indexed by the number of calls issued so far, and every
network call the code makes through `self.session` is recorded in an ordered
trace.  Python exceptions (`requests.HTTPError` from `raise_for_status`, and
`KeyError` from a missing JSON field) are modeled with `Except`; since Python
field mutations survive a raised exception, every operation returns its final
state next to the `Except` result.
-/

namespace SupersetAuth

/-- Time instants (UTC) in whole seconds.  Only ordering and second
arithmetic on `datetime` values matter to the code modeled here. -/
abbrev Instant := Int

/-- The mutable token fields of `OAuthSupersetAuth`:
`_access_token`, `_token_expires`, `_csrf_token`. -/
structure TokenState where
  access_token : Option String
  token_expires : Option Instant
  csrf_token : Option String
deriving Repr, DecidableEq

/-- The immutable credential fields of `OAuthSupersetAuth` that the modeled
operations read (`base_url` and `token_url` only select which endpoint is
called, which the environment already distinguishes). -/
structure Credentials where
  client_id : String
  client_secret : String
  username : String
  password : String
  scope : String
  token_type : String
deriving Repr, DecidableEq

/-- The fields of a token-endpoint JSON body that `_fetch_access_token`
reads: `access_token` and `expires_in`, each possibly absent. -/
structure TokenBody where
  access_token : Option String
  expires_in : Option Int
deriving Repr, DecidableEq

/-- The field of a CSRF-endpoint JSON body that `_fetch_csrf_token` reads. -/
structure CsrfBody where
  result : Option String
deriving Repr, DecidableEq

/-- An HTTP response: status code plus the JSON body fields of type `β`. -/
structure HttpResponse (β : Type) where
  status_code : Nat
  body : β
deriving Repr, DecidableEq

/-- `requests.Response.raise_for_status` raises `HTTPError` exactly for
status codes 400–599. -/
def raise_for_status_fails (status : Nat) : Bool :=
  decide (400 ≤ status ∧ status < 600)

/-- The exceptions the modeled operations can raise: `requests.HTTPError`
out of `raise_for_status` (the spec's AuthenticationError) and `KeyError`
from a 2xx body missing a required field (the spec's
MalformedResponseError). -/
inductive AuthFailure where
  | authenticationError (status : Nat)
  | malformedResponseError (missingField : String)
deriving Repr, DecidableEq

/-- A network call issued through `self.session`, carrying the request data
relevant to the claims: the form payload of the token POST, and the
`Authorization` header of the CSRF GET. -/
inductive NetCall where
  | tokenPost (grant_type client_id client_secret username password scope : String)
  | csrfGet (authorization : String)
deriving Repr, DecidableEq

/-- Whether a network call is the CSRF GET. -/
def NetCall.isCsrfGet : NetCall → Bool
  | .csrfGet _ => true
  | .tokenPost _ _ _ _ _ _ => false

/-- The environment of one facade instance: the wall clock (successive
values returned by `datetime.now(tz=UTC)`) and the two endpoints, each
mapping the index of a call to its response. -/
structure Env where
  clock : Nat → Instant
  tokenEndpoint : Nat → HttpResponse TokenBody
  csrfEndpoint : Nat → HttpResponse CsrfBody

/-- Dynamic state of one `OAuthSupersetAuth` instance: the token fields plus
instrumentation (how many clock reads and endpoint calls have happened, and
the ordered list of network calls issued so far). -/
structure SessionState where
  tok : TokenState
  clockTick : Nat
  postCount : Nat
  getCount : Nat
  trace : List NetCall
deriving Repr, DecidableEq

/-- One call of `datetime.now(tz=UTC)`. -/
def now (env : Env) (s : SessionState) : Instant × SessionState :=
  (env.clock s.clockTick, { s with clockTick := s.clockTick + 1 })

/-- `timedelta(minutes=5)`, in seconds. -/
def refresh_buffer : Int := 300

/-- `OAuthSupersetAuth._is_token_expired`: `True` when `_token_expires` is
`None`, otherwise `now >= _token_expires - buffer`. -/
def is_token_expired (env : Env) (s : SessionState) : Bool × SessionState :=
  match s.tok.token_expires with
  | none => (true, s)
  | some expiry =>
    let (t, s') := now env s
    (decide (expiry - refresh_buffer ≤ t), s')

/-- `OAuthSupersetAuth._fetch_access_token`: POST the password-grant payload,
`raise_for_status`, read `access_token` (KeyError when absent, raised before
any field is written), then store the expiry only when `expires_in` is
present. -/
def fetch_access_token (c : Credentials) (env : Env) (s : SessionState) :
    Except AuthFailure String × SessionState :=
  let payload := NetCall.tokenPost "password" c.client_id c.client_secret
      c.username c.password c.scope
  let response := env.tokenEndpoint s.postCount
  let s := { s with postCount := s.postCount + 1, trace := s.trace ++ [payload] }
  if raise_for_status_fails response.status_code then
    (.error (.authenticationError response.status_code), s)
  else
    match response.body.access_token with
    | none => (.error (.malformedResponseError "access_token"), s)
    | some tokenVal =>
      let s := { s with tok := { s.tok with access_token := some tokenVal } }
      match response.body.expires_in with
      | none => (.ok tokenVal, s)
      | some expires_in =>
        let (t, s) := now env s
        (.ok tokenVal,
         { s with tok := { s.tok with token_expires := some (t + expires_in) } })

/-- `OAuthSupersetAuth.get_access_token`: serve the cached token unless it is
unset or expired (the `or` is short-circuiting, so the expiry check runs only
when a token is set). -/
def get_access_token (c : Credentials) (env : Env) (s : SessionState) :
    Except AuthFailure String × SessionState :=
  match s.tok.access_token with
  | none => fetch_access_token c env s
  | some tokenVal =>
    match is_token_expired env s with
    | (true, s') => fetch_access_token c env s'
    | (false, s') => (.ok tokenVal, s')

/-- `OAuthSupersetAuth._fetch_csrf_token`: build the `Authorization` header
from `get_access_token()`, GET the CSRF endpoint, `raise_for_status`, then
store `response.json().get("result")` — an `Optional` value, since `.get`
returns `None` (and cannot raise) when the field is absent. -/
def fetch_csrf_token (c : Credentials) (env : Env) (s : SessionState) :
    Except AuthFailure (Option String) × SessionState :=
  match get_access_token c env s with
  | (.error e, s) => (.error e, s)
  | (.ok tokenVal, s) =>
    let authHeader := c.token_type ++ " " ++ tokenVal
    let response := env.csrfEndpoint s.getCount
    let s := { s with getCount := s.getCount + 1,
                      trace := s.trace ++ [NetCall.csrfGet authHeader] }
    if raise_for_status_fails response.status_code then
      (.error (.authenticationError response.status_code), s)
    else
      let resultVal := response.body.result
      (.ok resultVal, { s with tok := { s.tok with csrf_token := resultVal } })

/-- `OAuthSupersetAuth.get_csrf_token`: serve the cached CSRF token when set,
fetch otherwise. -/
def get_csrf_token (c : Credentials) (env : Env) (s : SessionState) :
    Except AuthFailure (Option String) × SessionState :=
  match s.tok.csrf_token with
  | none => fetch_csrf_token c env s
  | some v => (.ok (some v), s)

/-- The headers dictionary built by `get_headers`; `X-CSRFToken` is optional
because `get_csrf_token` can return `None`. -/
structure AuthHeaders where
  authorization : String
  x_csrf_token : Option String
deriving Repr, DecidableEq

/-- `OAuthSupersetAuth.get_headers`: the dict literal evaluates the
`Authorization` value (which calls `get_access_token`) before the
`X-CSRFToken` value (which calls `get_csrf_token`). -/
def get_headers (c : Credentials) (env : Env) (s : SessionState) :
    Except AuthFailure AuthHeaders × SessionState :=
  match get_access_token c env s with
  | (.error e, s) => (.error e, s)
  | (.ok tokenVal, s) =>
    match get_csrf_token c env s with
    | (.error e, s) => (.error e, s)
    | (.ok csrfVal, s) =>
      (.ok { authorization := c.token_type ++ " " ++ tokenVal,
             x_csrf_token := csrfVal }, s)

/-- `OAuthSupersetAuth.auth`: unconditionally `_fetch_access_token` then
`_fetch_csrf_token`. -/
def auth (c : Credentials) (env : Env) (s : SessionState) :
    Except AuthFailure Unit × SessionState :=
  match fetch_access_token c env s with
  | (.error e, s) => (.error e, s)
  | (.ok _, s) =>
    match fetch_csrf_token c env s with
    | (.error e, s) => (.error e, s)
    | (.ok _, s) => (.ok (), s)

/-- The token fields right after `__init__` sets all three to `None`,
before `self.auth()` runs. -/
def initial_state : SessionState :=
  { tok := { access_token := none, token_expires := none, csrf_token := none },
    clockTick := 0, postCount := 0, getCount := 0, trace := [] }

/-- `OAuthSupersetAuth.__init__`: zero the token fields, then `self.auth()`. -/
def construct (c : Credentials) (env : Env) :
    Except AuthFailure Unit × SessionState :=
  auth c env initial_state

/-! ### The auth factory (`preset_cli/auth/factory.py`) -/

/-- Whether `pat` occurs at the start of `l`, char for char. -/
def starts_with : List Char → List Char → Bool
  | [], _ => true
  | _ :: _, [] => false
  | a :: as, b :: bs => a == b && starts_with as bs

/-- Whether `needle` occurs contiguously inside `hay`. -/
def seg_in : List Char → List Char → Bool
  | needle, [] => needle.isEmpty
  | needle, c :: rest => starts_with needle (c :: rest) || seg_in needle rest

/-- Replace every (non-overlapping, leftmost-first) occurrence of `pat` in
the last argument by `rep`, as Python `str.replace` does.  Written with
explicit fuel so that it is structurally recursive; one unit of fuel per
character of input always suffices. -/
def replace_chars (pat rep : List Char) : Nat → List Char → List Char
  | 0, l => l
  | _ + 1, [] => []
  | fuel + 1, c :: rest =>
    if starts_with pat (c :: rest) then
      rep ++ replace_chars pat rep fuel (rest.drop (pat.length - 1))
    else
      c :: replace_chars pat rep fuel rest

/-- Python `s.replace(pat, rep)` (Lean's own `String.replace` is defined by
well-founded recursion and does not reduce in the kernel). -/
def str_replace (s pat rep : String) : String :=
  String.mk (replace_chars pat.toList rep.toList s.toList.length s.toList)

/-- Python `needle in hay` on strings: contiguous-substring test. -/
def str_has (needle hay : String) : Bool :=
  seg_in needle.toList hay.toList

/-- The configuration fields that `create_superset_auth` reads.  The class
`SupersetInstanceConfig` itself lives in `sup/config/settings.py`; per the
spec's configuration surface its auth fields are optional strings, and the
factory tests them with Python truthiness (`not value`). -/
structure SupersetInstanceConfig where
  url : String
  auth_method : String
  username : Option String := none
  password : Option String := none
  jwt_token : Option String := none
  oauth_token_url : Option String := none
  oauth_client_id : Option String := none
  oauth_client_secret : Option String := none
  oauth_username : Option String := none
  oauth_password : Option String := none
  oauth_scope : Option String := none
  oauth_token_type : Option String := none
deriving Repr, DecidableEq

/-- Python truthiness test `not value` for an optional string field: true
for `None` and for the empty string. -/
def is_blank : Option String → Bool
  | none => true
  | some s => s.isEmpty

/-- The result of the factory: which auth class gets instantiated, with the
constructor arguments passed to it.  Instantiating `oauthSuperset` is what
runs `OAuthSupersetAuth.__init__` — and hence the network calls of
`construct`; an `.error` result raises before any of that happens. -/
inductive CreatedAuth where
  | usernamePassword (base_url : String) (username password : Option String)
  | supersetJWT (jwt_token : Option String) (base_url : String)
  | oauthSuperset (base_url : String)
      (token_url client_id client_secret username password : Option String)
      (scope token_type : Option String)
deriving Repr, DecidableEq

/-- The `required_fields` dict of the oauth branch, in insertion order. -/
def oauth_required_fields (config : SupersetInstanceConfig) :
    List (String × Option String) :=
  [("oauth_token_url", config.oauth_token_url),
   ("oauth_client_id", config.oauth_client_id),
   ("oauth_client_secret", config.oauth_client_secret),
   ("oauth_username", config.oauth_username),
   ("oauth_password", config.oauth_password)]

/-- The oauth branch's
`missing = [key.replace("oauth_", "") for key, value in ... if not value]`. -/
def oauth_missing (config : SupersetInstanceConfig) : List String :=
  ((oauth_required_fields config).filter (fun kv => is_blank kv.2)).map
    (fun kv => str_replace kv.1 "oauth_" "")

/-- The `ValueError` message of the oauth branch when fields are missing. -/
def oauth_missing_message (config : SupersetInstanceConfig) : String :=
  "OAuth2 authentication requires all of: token_url, client_id, " ++
  "client_secret, username, password. Missing: " ++
  String.intercalate ", " (oauth_missing config) ++
  ". Use environment variables for secrets: " ++
  "oauth_client_secret='$\x7bENV:SUPERSET_OAUTH_SECRET\x7d', " ++
  "oauth_password='$\x7bENV:SERVICE_PASSWORD\x7d'"

/-- `create_superset_auth`: `.error` carries the `ValueError` message,
`.ok` names the auth class that would then be instantiated. -/
def create_superset_auth (config : SupersetInstanceConfig) :
    Except String CreatedAuth :=
  if config.auth_method = "username_password" then
    if is_blank config.username || is_blank config.password then
      .error ("Username/password authentication requires both 'username' " ++
        "and 'password' fields in configuration")
    else
      .ok (.usernamePassword config.url config.username config.password)
  else if config.auth_method = "jwt" then
    if is_blank config.jwt_token then
      .error "JWT authentication requires 'jwt_token' field in configuration"
    else
      .ok (.supersetJWT config.jwt_token config.url)
  else if config.auth_method = "oauth" then
    if (oauth_missing config).isEmpty then
      .ok (.oauthSuperset config.url config.oauth_token_url
        config.oauth_client_id config.oauth_client_secret
        config.oauth_username config.oauth_password
        config.oauth_scope config.oauth_token_type)
    else
      .error (oauth_missing_message config)
  else
    .error ("Unknown authentication method: '" ++ config.auth_method ++
      "'. Must be one of: username_password, jwt, oauth")

/-! ### Sequences of access-token operations (for the frame property) -/

/-- One of the two access-token operations named by the frame claim. -/
inductive AccessOp where
  | fetchOp
  | getOp
deriving Repr, DecidableEq

/-- Run one access-token operation for its state effect (a raised exception
still leaves its state effects behind, as in Python). -/
def run_access_op (c : Credentials) (env : Env) (s : SessionState) :
    AccessOp → SessionState
  | .fetchOp => (fetch_access_token c env s).2
  | .getOp => (get_access_token c env s).2

/-- Run a sequence of access-token operations left to right. -/
def run_access_ops (c : Credentials) (env : Env) (ops : List AccessOp)
    (s : SessionState) : SessionState :=
  ops.foldl (run_access_op c env) s

/-! ### Concrete inputs used by witnesses and counterexamples -/

/-- A concrete credential set for the concrete evaluations below. -/
def cStd : Credentials :=
  { client_id := "client", client_secret := "secret", username := "user",
    password := "pass", scope := "openid", token_type := "Bearer" }

/-- The token POST that `cStd` produces. -/
def tokenPostOf (c : Credentials) : NetCall :=
  .tokenPost "password" c.client_id c.client_secret c.username c.password c.scope

/-- Steady clock at 1000; token endpoint answers 200 with
`expires_in = 3600`; CSRF endpoint answers 200 with result "C". -/
def envStd : Env :=
  { clock := fun _ => 1000,
    tokenEndpoint := fun _ =>
      ⟨200, { access_token := some "T", expires_in := some 3600 }⟩,
    csrfEndpoint := fun _ => ⟨200, { result := some "C" }⟩ }

/-- Like `envStd` but the token responses carry no `expires_in` field. -/
def envNoExp : Env :=
  { envStd with
    tokenEndpoint := fun _ =>
      ⟨200, { access_token := some "T", expires_in := none }⟩ }

/-- Like `envStd` but the 2xx token responses carry no `access_token`. -/
def envNoTok : Env :=
  { envStd with
    tokenEndpoint := fun _ =>
      ⟨200, { access_token := none, expires_in := none }⟩ }

/-- Like `envStd` but the 2xx CSRF responses carry no `result` field. -/
def envNoResult : Env :=
  { envStd with csrfEndpoint := fun _ => ⟨200, { result := none }⟩ }

/-- Like `envStd` but the CSRF endpoint answers 401. -/
def envCsrf401 : Env :=
  { envStd with csrfEndpoint := fun _ => ⟨401, { result := none }⟩ }

/-- A state holding an unexpired token (expiry 10000, clock at 1000) and no
CSRF token. -/
def state_fresh : SessionState :=
  { tok := { access_token := some "T0", token_expires := some 10000,
             csrf_token := none },
    clockTick := 0, postCount := 0, getCount := 0, trace := [] }

/-- `state_fresh` with a cached CSRF token as well. -/
def state_full : SessionState :=
  { state_fresh with tok := { state_fresh.tok with csrf_token := some "C0" } }

/-- `state_fresh` with an expiry (700) that the 5-minute buffer has already
swallowed when the clock reads 1000. -/
def state_old : SessionState :=
  { state_fresh with tok := { state_fresh.tok with token_expires := some 700 } }

/-- An oauth configuration missing both `oauth_client_secret` and
`oauth_password` (the other required fields are present). -/
def cfg_missing_two : SupersetInstanceConfig :=
  { url := "https://superset.example.com",
    auth_method := "oauth",
    oauth_token_url := some "https://auth.example.com/token",
    oauth_client_id := some "client",
    oauth_username := some "user" }

/-! ### Helper lemmas about the state effects of each operation -/

lemma is_token_expired_tok (env : Env) (s : SessionState) :
    (is_token_expired env s).2.tok = s.tok := by
  unfold is_token_expired
  cases s.tok.token_expires <;> simp [now]

lemma is_token_expired_trace (env : Env) (s : SessionState) :
    (is_token_expired env s).2.trace = s.trace := by
  unfold is_token_expired
  cases s.tok.token_expires <;> simp [now]

lemma is_token_expired_postCount (env : Env) (s : SessionState) :
    (is_token_expired env s).2.postCount = s.postCount := by
  unfold is_token_expired
  cases s.tok.token_expires <;> simp [now]

lemma is_token_expired_getCount (env : Env) (s : SessionState) :
    (is_token_expired env s).2.getCount = s.getCount := by
  unfold is_token_expired
  cases s.tok.token_expires <;> simp [now]

lemma fetch_access_token_ok_no_expiry (c : Credentials) (env : Env)
    (s : SessionState) (t : String)
    (hok : raise_for_status_fails (env.tokenEndpoint s.postCount).status_code
      = false)
    (htok : (env.tokenEndpoint s.postCount).body.access_token = some t)
    (hexp : (env.tokenEndpoint s.postCount).body.expires_in = none) :
    fetch_access_token c env s =
      (.ok t,
       { s with
         postCount := s.postCount + 1,
         trace := s.trace ++ [tokenPostOf c],
         tok := { s.tok with access_token := some t } }) := by
  unfold fetch_access_token
  simp [hok, htok, hexp, tokenPostOf]

lemma fetch_access_token_ok_expiry (c : Credentials) (env : Env)
    (s : SessionState) (t : String) (e : Int)
    (hok : raise_for_status_fails (env.tokenEndpoint s.postCount).status_code
      = false)
    (htok : (env.tokenEndpoint s.postCount).body.access_token = some t)
    (hexp : (env.tokenEndpoint s.postCount).body.expires_in = some e) :
    fetch_access_token c env s =
      (.ok t,
       { s with
         postCount := s.postCount + 1,
         clockTick := s.clockTick + 1,
         trace := s.trace ++ [tokenPostOf c],
         tok := { s.tok with
                  access_token := some t,
                  token_expires := some (env.clock s.clockTick + e) } }) := by
  unfold fetch_access_token
  simp [hok, htok, hexp, tokenPostOf, now]

lemma fetch_access_token_status_error (c : Credentials) (env : Env)
    (s : SessionState)
    (hbad : raise_for_status_fails (env.tokenEndpoint s.postCount).status_code
      = true) :
    fetch_access_token c env s =
      (.error (.authenticationError (env.tokenEndpoint s.postCount).status_code),
       { s with
         postCount := s.postCount + 1,
         trace := s.trace ++ [tokenPostOf c] }) := by
  unfold fetch_access_token
  simp [hbad, tokenPostOf]

lemma fetch_access_token_missing_field (c : Credentials) (env : Env)
    (s : SessionState)
    (hok : raise_for_status_fails (env.tokenEndpoint s.postCount).status_code
      = false)
    (hmiss : (env.tokenEndpoint s.postCount).body.access_token = none) :
    fetch_access_token c env s =
      (.error (.malformedResponseError "access_token"),
       { s with
         postCount := s.postCount + 1,
         trace := s.trace ++ [tokenPostOf c] }) := by
  unfold fetch_access_token
  simp [hok, hmiss, tokenPostOf]

lemma fetch_access_token_frame (c : Credentials) (env : Env)
    (s : SessionState) :
    (fetch_access_token c env s).2.tok.csrf_token = s.tok.csrf_token ∧
    (fetch_access_token c env s).2.getCount = s.getCount ∧
    (fetch_access_token c env s).2.postCount = s.postCount + 1 ∧
    (fetch_access_token c env s).2.trace = s.trace ++ [tokenPostOf c] := by
  cases hb : raise_for_status_fails (env.tokenEndpoint s.postCount).status_code
  case true =>
    rw [fetch_access_token_status_error c env s hb]
    exact ⟨rfl, rfl, rfl, rfl⟩
  case false =>
    cases htok : (env.tokenEndpoint s.postCount).body.access_token
    case none =>
      rw [fetch_access_token_missing_field c env s hb htok]
      exact ⟨rfl, rfl, rfl, rfl⟩
    case some t =>
      cases hexp : (env.tokenEndpoint s.postCount).body.expires_in
      case none =>
        rw [fetch_access_token_ok_no_expiry c env s t hb htok hexp]
        exact ⟨rfl, rfl, rfl, rfl⟩
      case some e =>
        rw [fetch_access_token_ok_expiry c env s t e hb htok hexp]
        exact ⟨rfl, rfl, rfl, rfl⟩

lemma fetch_access_token_ok_tok (c : Credentials) (env : Env)
    (s : SessionState) (t : String) (s₁ : SessionState)
    (h : fetch_access_token c env s = (.ok t, s₁)) :
    s₁.tok.access_token = some t := by
  cases hb : raise_for_status_fails (env.tokenEndpoint s.postCount).status_code
  case true =>
    rw [fetch_access_token_status_error c env s hb] at h
    simp at h
  case false =>
    cases htok : (env.tokenEndpoint s.postCount).body.access_token
    case none =>
      rw [fetch_access_token_missing_field c env s hb htok] at h
      simp at h
    case some t₀ =>
      cases hexp : (env.tokenEndpoint s.postCount).body.expires_in
      case none =>
        rw [fetch_access_token_ok_no_expiry c env s t₀ hb htok hexp] at h
        simp at h
        obtain ⟨rfl, rfl⟩ := h
        rfl
      case some e =>
        rw [fetch_access_token_ok_expiry c env s t₀ e hb htok hexp] at h
        simp at h
        obtain ⟨rfl, rfl⟩ := h
        rfl
lemma get_access_token_cache_hit (c : Credentials) (env : Env)
    (s : SessionState) (t : String)
    (ht : s.tok.access_token = some t)
    (hfresh : (is_token_expired env s).1 = false) :
    get_access_token c env s = (.ok t, (is_token_expired env s).2) := by
  unfold get_access_token
  rw [ht]
  rcases hh : is_token_expired env s with ⟨b, s'⟩
  rw [hh] at hfresh
  simp at hfresh
  subst hfresh
  simp

lemma get_access_token_miss_none (c : Credentials) (env : Env)
    (s : SessionState)
    (ht : s.tok.access_token = none) :
    get_access_token c env s = fetch_access_token c env s := by
  unfold get_access_token
  rw [ht]

lemma get_access_token_miss_expired (c : Credentials) (env : Env)
    (s : SessionState) (t : String)
    (ht : s.tok.access_token = some t)
    (hexp : (is_token_expired env s).1 = true) :
    get_access_token c env s =
      fetch_access_token c env (is_token_expired env s).2 := by
  unfold get_access_token
  rw [ht]
  rcases hh : is_token_expired env s with ⟨b, s'⟩
  rw [hh] at hexp
  simp at hexp
  subst hexp
  simp

lemma get_access_token_csrf (c : Credentials) (env : Env)
    (s : SessionState) :
    (get_access_token c env s).2.tok.csrf_token = s.tok.csrf_token := by
  unfold get_access_token
  rcases ht : s.tok.access_token with _ | t
  · exact (fetch_access_token_frame c env s).1
  · rcases hh : is_token_expired env s with ⟨b, s'⟩
    have hs' : s'.tok = s.tok := by
      have := is_token_expired_tok env s
      rw [hh] at this
      exact this
    cases b
    · simp [hs']
    · simpa [hs'] using (fetch_access_token_frame c env s').1

lemma get_access_token_getCount (c : Credentials) (env : Env)
    (s : SessionState) :
    (get_access_token c env s).2.getCount = s.getCount := by
  unfold get_access_token
  rcases ht : s.tok.access_token with _ | t
  · exact (fetch_access_token_frame c env s).2.1
  · rcases hh : is_token_expired env s with ⟨b, s'⟩
    have hs' : s'.getCount = s.getCount := by
      have := is_token_expired_getCount env s
      rw [hh] at this
      exact this
    cases b
    · simpa using hs'
    · simpa [hs'] using (fetch_access_token_frame c env s').2.1

lemma get_access_token_trace_cases (c : Credentials) (env : Env)
    (s : SessionState) :
    (get_access_token c env s).2.trace = s.trace ∨
    (get_access_token c env s).2.trace = s.trace ++ [tokenPostOf c] := by
  unfold get_access_token
  rcases ht : s.tok.access_token with _ | t
  · right
    exact (fetch_access_token_frame c env s).2.2.2
  · rcases hh : is_token_expired env s with ⟨b, s'⟩
    have hs' : s'.trace = s.trace := by
      have := is_token_expired_trace env s
      rw [hh] at this
      exact this
    cases b
    · left
      simpa using hs'
    · right
      simpa [hs'] using (fetch_access_token_frame c env s').2.2.2

lemma get_access_token_ok_tok (c : Credentials) (env : Env)
    (s : SessionState) (t : String) (s₁ : SessionState)
    (h : get_access_token c env s = (.ok t, s₁)) :
    s₁.tok.access_token = some t := by
  unfold get_access_token at h
  rcases ht : s.tok.access_token with _ | t₀ <;> rw [ht] at h
  · exact fetch_access_token_ok_tok c env s t s₁ h
  · rcases hh : is_token_expired env s with ⟨b, s'⟩
    rw [hh] at h
    cases b
    · simp at h
      obtain ⟨rfl, rfl⟩ := h
      have hs' : s'.tok = s.tok := by
        have := is_token_expired_tok env s
        rw [hh] at this
        exact this
      rw [hs', ht]
    · exact fetch_access_token_ok_tok c env s' t s₁ h
lemma fetch_csrf_token_access_error (c : Credentials) (env : Env)
    (s : SessionState) (e : AuthFailure) (s₁ : SessionState)
    (h : get_access_token c env s = (.error e, s₁)) :
    fetch_csrf_token c env s = (.error e, s₁) := by
  unfold fetch_csrf_token
  rw [h]

lemma fetch_csrf_token_ok_result (c : Credentials) (env : Env)
    (s : SessionState) (t : String) (s₁ : SessionState)
    (h : get_access_token c env s = (.ok t, s₁))
    (hok : raise_for_status_fails (env.csrfEndpoint s₁.getCount).status_code
      = false) :
    fetch_csrf_token c env s =
      (.ok (env.csrfEndpoint s₁.getCount).body.result,
       { s₁ with
         getCount := s₁.getCount + 1,
         trace := s₁.trace ++ [NetCall.csrfGet (c.token_type ++ " " ++ t)],
         tok := { s₁.tok with
                  csrf_token := (env.csrfEndpoint s₁.getCount).body.result } }) := by
  unfold fetch_csrf_token
  rw [h]
  simp [hok]

lemma fetch_csrf_token_status_error (c : Credentials) (env : Env)
    (s : SessionState) (t : String) (s₁ : SessionState)
    (h : get_access_token c env s = (.ok t, s₁))
    (hbad : raise_for_status_fails (env.csrfEndpoint s₁.getCount).status_code
      = true) :
    fetch_csrf_token c env s =
      (.error (.authenticationError (env.csrfEndpoint s₁.getCount).status_code),
       { s₁ with
         getCount := s₁.getCount + 1,
         trace := s₁.trace ++ [NetCall.csrfGet (c.token_type ++ " " ++ t)] }) := by
  unfold fetch_csrf_token
  rw [h]
  simp [hbad]

lemma get_csrf_token_cached (c : Credentials) (env : Env)
    (s : SessionState) (v : String)
    (hv : s.tok.csrf_token = some v) :
    get_csrf_token c env s = (.ok (some v), s) := by
  unfold get_csrf_token
  rw [hv]

lemma get_csrf_token_uncached (c : Credentials) (env : Env)
    (s : SessionState)
    (hv : s.tok.csrf_token = none) :
    get_csrf_token c env s = fetch_csrf_token c env s := by
  unfold get_csrf_token
  rw [hv]
/-! ### The claims -/

/-- Claim C1: the expiry policy `_is_token_expired` returns true whenever no
expiry instant is recorded, and otherwise returns true exactly when the
current time is at or past the recorded expiry minus the five-minute
buffer. -/
theorem C1_is_expired_policy (env : Env) (s : SessionState) :
    (s.tok.token_expires = none → (is_token_expired env s).1 = true) ∧
    (∀ expiry : Instant, s.tok.token_expires = some expiry →
      ((is_token_expired env s).1 = true ↔
        expiry - refresh_buffer ≤ env.clock s.clockTick)) := by
  constructor
  · intro h
    unfold is_token_expired
    rw [h]
  · intro expiry h
    unfold is_token_expired
    rw [h]
    simp [now]

/-- Witness for C1: the freshly zeroed state has no expiry recorded, so the
policy says expired; a state with expiry 700 under a clock reading 1000 is
expired exactly because 700 − 300 ≤ 1000. -/
theorem C1_is_expired_policy_witness :
    (is_token_expired envStd initial_state).1 = true ∧
    ((is_token_expired envStd state_old).1 = true ↔
      (700 : Int) - refresh_buffer ≤ envStd.clock state_old.clockTick) :=
  ⟨(C1_is_expired_policy envStd initial_state).1 rfl,
   (C1_is_expired_policy envStd state_old).2 700 rfl⟩

/-- Claim C2: `get_access_token` returns the cached access token with no
network call when a token is set and the expiry policy says it is fresh;
when the token is unset or expired it issues exactly one token-endpoint
POST, stores the token the endpoint returned, and returns that token. -/
theorem C2_get_access_token_cache (c : Credentials) (env : Env)
    (s : SessionState) :
    (∀ t : String, s.tok.access_token = some t →
      (is_token_expired env s).1 = false →
        get_access_token c env s = (.ok t, (is_token_expired env s).2) ∧
        (is_token_expired env s).2.trace = s.trace ∧
        (is_token_expired env s).2.tok = s.tok) ∧
    ((s.tok.access_token = none ∨ (is_token_expired env s).1 = true) →
      ∀ t : String,
        raise_for_status_fails (env.tokenEndpoint s.postCount).status_code
          = false →
        (env.tokenEndpoint s.postCount).body.access_token = some t →
        ∃ s₁, get_access_token c env s = (.ok t, s₁) ∧
          s₁.tok.access_token = some t ∧
          s₁.trace = s.trace ++ [tokenPostOf c] ∧
          s₁.postCount = s.postCount + 1) := by
  constructor
  · intro t ht hfresh
    exact ⟨get_access_token_cache_hit c env s t ht hfresh,
      is_token_expired_trace env s, is_token_expired_tok env s⟩
  · intro hstale t hok htok
    have key : ∀ s₀ : SessionState,
        raise_for_status_fails (env.tokenEndpoint s₀.postCount).status_code
          = false →
        (env.tokenEndpoint s₀.postCount).body.access_token = some t →
        ∃ s₁, fetch_access_token c env s₀ = (.ok t, s₁) ∧
          s₁.tok.access_token = some t ∧
          s₁.trace = s₀.trace ++ [tokenPostOf c] ∧
          s₁.postCount = s₀.postCount + 1 := by
      intro s₀ hok₀ htok₀
      cases hexp : (env.tokenEndpoint s₀.postCount).body.expires_in
      case none =>
        rw [fetch_access_token_ok_no_expiry c env s₀ t hok₀ htok₀ hexp]
        exact ⟨_, rfl, rfl, rfl, rfl⟩
      case some e =>
        rw [fetch_access_token_ok_expiry c env s₀ t e hok₀ htok₀ hexp]
        exact ⟨_, rfl, rfl, rfl, rfl⟩
    rcases hstale with hnone | hexpired
    · rw [get_access_token_miss_none c env s hnone]
      exact key s hok htok
    · rcases ht : s.tok.access_token with _ | t₀
      · rw [get_access_token_miss_none c env s ht]
        exact key s hok htok
      · rw [get_access_token_miss_expired c env s t₀ ht hexpired]
        have hpost := is_token_expired_postCount env s
        have htr := is_token_expired_trace env s
        obtain ⟨s₁, h₁, h₂, h₃, h₄⟩ :=
          key (is_token_expired env s).2 (by rw [hpost]; exact hok)
            (by rw [hpost]; exact htok)
        exact ⟨s₁, h₁, h₂, by rw [h₃, htr], by rw [h₄, hpost]⟩

/-- Witness for C2: under `envStd`, the fresh cached token "T0" is served
back unchanged, and from the empty state a refresh stores and returns the
endpoint's token "T" with exactly one POST on the trace. -/
theorem C2_get_access_token_cache_witness :
    (get_access_token cStd envStd state_fresh =
      (.ok "T0", (is_token_expired envStd state_fresh).2) ∧
     (is_token_expired envStd state_fresh).2.trace = state_fresh.trace ∧
     (is_token_expired envStd state_fresh).2.tok = state_fresh.tok) ∧
    (∃ s₁, get_access_token cStd envStd initial_state = (.ok "T", s₁) ∧
      s₁.tok.access_token = some "T" ∧
      s₁.trace = initial_state.trace ++ [tokenPostOf cStd] ∧
      s₁.postCount = initial_state.postCount + 1) :=
  ⟨(C2_get_access_token_cache cStd envStd state_fresh).1 "T0" rfl (by decide),
   (C2_get_access_token_cache cStd envStd initial_state).2 (Or.inl rfl) "T"
     (by decide) (by decide)⟩

/-- Claim C3: when the token endpoint returns a 2xx body with no
`access_token` field, `_fetch_access_token` fails with the missing-field
error (`KeyError`, the spec's MalformedResponseError) — the exception is
raised before any assignment, so the previously cached access token, expiry
and CSRF token are all left unchanged. -/
theorem C3_malformed_token_response (c : Credentials) (env : Env)
    (s : SessionState)
    (hok : raise_for_status_fails (env.tokenEndpoint s.postCount).status_code
      = false)
    (hmiss : (env.tokenEndpoint s.postCount).body.access_token = none) :
    ∃ s₁, fetch_access_token c env s =
        (.error (.malformedResponseError "access_token"), s₁) ∧
      s₁.tok.access_token = s.tok.access_token ∧
      s₁.tok.token_expires = s.tok.token_expires ∧
      s₁.tok.csrf_token = s.tok.csrf_token := by
  rw [fetch_access_token_missing_field c env s hok hmiss]
  exact ⟨_, rfl, rfl, rfl, rfl⟩

/-- Witness for C3: a 2xx token response with an empty body, against a state
that caches token "T0" with expiry 10000 — both survive the failure. -/
theorem C3_malformed_token_response_witness :
    ∃ s₁, fetch_access_token cStd envNoTok state_fresh =
        (.error (.malformedResponseError "access_token"), s₁) ∧
      s₁.tok.access_token = state_fresh.tok.access_token ∧
      s₁.tok.token_expires = state_fresh.tok.token_expires ∧
      s₁.tok.csrf_token = state_fresh.tok.csrf_token :=
  C3_malformed_token_response cStd envNoTok state_fresh (by decide) (by decide)

/-- Claim C4 is contradicted by the code: at a concrete 2xx CSRF response
whose body has no `result` field, `_fetch_csrf_token` raises nothing —
`.get("result")` returns `None`, which is stored and returned, although the
function's own docstring promises a `KeyError` for exactly this case.  The
parenthetical half of the claim does hold: a 401 CSRF response fails with
the HTTP-status error. -/
theorem C4_csrf_missing_result_does_not_fail :
    (fetch_csrf_token cStd envNoResult state_fresh).1 = .ok none ∧
    (fetch_csrf_token cStd envNoResult state_fresh).2.tok.csrf_token = none ∧
    (fetch_csrf_token cStd envCsrf401 state_fresh).1 =
      .error (.authenticationError 401) :=
  ⟨rfl, rfl, rfl⟩

/-- Counterexample to claim C5 as stated: starting from a state whose stored
expiry is 10000, a successful token fetch whose 2xx response carries
`access_token` but no `expires_in` leaves the old expiry in place — the
expiry is not unset, and the subsequent expiry check still returns false. -/
theorem C5_counterexample :
    (fetch_access_token cStd envNoExp state_fresh).1 = .ok "T" ∧
    (fetch_access_token cStd envNoExp state_fresh).2.tok.token_expires
      = some 10000 ∧
    (is_token_expired envNoExp
      (fetch_access_token cStd envNoExp state_fresh).2).1 = false :=
  ⟨rfl, by decide, by decide⟩

/-- Claim C5 amended: after a successful `_fetch_access_token` whose 2xx
response carries `access_token` but no `expires_in`, the stored expiry is
left unchanged rather than unset; in particular, when no expiry was recorded
before the call it stays unset, and every subsequent expiry check returns
true. -/
theorem C5_no_expires_in_keeps_expiry (c : Credentials) (env : Env)
    (s : SessionState) (t : String)
    (hok : raise_for_status_fails (env.tokenEndpoint s.postCount).status_code
      = false)
    (htok : (env.tokenEndpoint s.postCount).body.access_token = some t)
    (hexp : (env.tokenEndpoint s.postCount).body.expires_in = none) :
    ∃ s₁, fetch_access_token c env s = (.ok t, s₁) ∧
      s₁.tok.token_expires = s.tok.token_expires ∧
      (s.tok.token_expires = none →
        ∀ env₂ : Env, (is_token_expired env₂ s₁).1 = true) := by
  rw [fetch_access_token_ok_no_expiry c env s t hok htok hexp]
  refine ⟨_, rfl, rfl, ?_⟩
  intro hnone env₂
  unfold is_token_expired
  simp [hnone]

/-- Witness for C5 (amended): from the empty initial state, a token response
without `expires_in` leaves the expiry unset and the policy judges the new
token expired under any clock. -/
theorem C5_no_expires_in_keeps_expiry_witness :
    ∃ s₁, fetch_access_token cStd envNoExp initial_state = (.ok "T", s₁) ∧
      s₁.tok.token_expires = initial_state.tok.token_expires ∧
      (initial_state.tok.token_expires = none →
        ∀ env₂ : Env, (is_token_expired env₂ s₁).1 = true) :=
  C5_no_expires_in_keeps_expiry cStd envNoExp initial_state "T"
    (by decide) (by decide) (by decide)

/-- Claim C9: refreshing the access token never modifies the cached CSRF
token — any sequence of `_fetch_access_token` / `get_access_token` calls
leaves the CSRF field unchanged (whether each call succeeds or raises), and
a subsequent `get_csrf_token` serves the same cached value with no state
change and hence no network call. -/
theorem C9_csrf_frame (c : Credentials) (env : Env) (ops : List AccessOp)
    (s : SessionState) (v : String)
    (hv : s.tok.csrf_token = some v) :
    (run_access_ops c env ops s).tok.csrf_token = some v ∧
    get_csrf_token c env (run_access_ops c env ops s) =
      (.ok (some v), run_access_ops c env ops s) := by
  have key : (run_access_ops c env ops s).tok.csrf_token = some v := by
    induction ops generalizing s with
    | nil => simpa [run_access_ops] using hv
    | cons op rest ih =>
      have hstep : (run_access_op c env s op).tok.csrf_token = some v := by
        cases op
        case fetchOp =>
          show ((fetch_access_token c env s).2).tok.csrf_token = some v
          rw [(fetch_access_token_frame c env s).1]
          exact hv
        case getOp =>
          show ((get_access_token c env s).2).tok.csrf_token = some v
          rw [get_access_token_csrf c env s]
          exact hv
      simpa [run_access_ops, List.foldl_cons] using
        ih (run_access_op c env s op) hstep
  exact ⟨key, get_csrf_token_cached c env _ v key⟩

/-- Witness for C9: starting from a state caching CSRF "C0", a fetch
followed by a get leaves "C0" cached, and `get_csrf_token` serves it with
no state change. -/
theorem C9_csrf_frame_witness :
    (run_access_ops cStd envStd [AccessOp.fetchOp, AccessOp.getOp]
      state_full).tok.csrf_token = some "C0" ∧
    get_csrf_token cStd envStd
        (run_access_ops cStd envStd [AccessOp.fetchOp, AccessOp.getOp]
          state_full) =
      (.ok (some "C0"),
       run_access_ops cStd envStd [AccessOp.fetchOp, AccessOp.getOp]
         state_full) :=
  C9_csrf_frame cStd envStd [AccessOp.fetchOp, AccessOp.getOp] state_full
    "C0" (by decide)

/-- Claim C10: with the CSRF cache empty, when the access token is obtained
and the CSRF endpoint returns 2xx without a `result` field, `get_csrf_token`
returns the null value `None` instead of a CSRF string, the cached CSRF
field remains unset, and therefore every subsequent `get_csrf_token` call
goes to `_fetch_csrf_token` (a network fetch) rather than serving a cached
value. -/
theorem C10_missing_result_returns_none (c : Credentials) (env : Env)
    (s : SessionState) (t : String) (s₁ : SessionState)
    (hempty : s.tok.csrf_token = none)
    (hacc : get_access_token c env s = (.ok t, s₁))
    (hok : raise_for_status_fails (env.csrfEndpoint s₁.getCount).status_code
      = false)
    (hres : (env.csrfEndpoint s₁.getCount).body.result = none) :
    ∃ s₂, get_csrf_token c env s = (.ok none, s₂) ∧
      s₂.tok.csrf_token = none ∧
      (∀ env₂ : Env, get_csrf_token c env₂ s₂ = fetch_csrf_token c env₂ s₂) := by
  rw [get_csrf_token_uncached c env s hempty,
      fetch_csrf_token_ok_result c env s t s₁ hacc hok, hres]
  refine ⟨_, rfl, rfl, ?_⟩
  intro env₂
  exact get_csrf_token_uncached c env₂ _ rfl

/-- Witness for C10: a cached fresh access token, a 2xx CSRF response with
an empty body — `get_csrf_token` yields `None` and the next call fetches
again. -/
theorem C10_missing_result_returns_none_witness :
    ∃ s₂, get_csrf_token cStd envNoResult state_fresh = (.ok none, s₂) ∧
      s₂.tok.csrf_token = none ∧
      (∀ env₂ : Env,
        get_csrf_token cStd env₂ s₂ = fetch_csrf_token cStd env₂ s₂) :=
  C10_missing_result_returns_none cStd envNoResult state_fresh "T0"
    (get_access_token cStd envNoResult state_fresh).2 (by decide) rfl
    (by decide) (by decide)

/-- Counterexample to claim C6 as stated: with a token endpoint that never
reports `expires_in`, `get_headers` from the empty state does issue a CSRF
GET (the final call of its trace) carrying the facade's current access token
"T" — but that token is already judged expired by the policy at the moment
the GET is issued: its expiry is unset, in the final state and hence (since
the CSRF fetch never writes the expiry) also when the GET went out.  So the
CSRF GET does not always carry a non-expired access token. -/
theorem C6_counterexample :
    (get_headers cStd envNoExp initial_state).2.trace =
      [tokenPostOf cStd, tokenPostOf cStd, NetCall.csrfGet "Bearer T"] ∧
    (get_headers cStd envNoExp initial_state).2.tok.access_token = some "T" ∧
    (get_headers cStd envNoExp initial_state).2.tok.token_expires = none ∧
    (is_token_expired envNoExp
      (get_headers cStd envNoExp initial_state).2).1 = true :=
  ⟨by decide, by decide, by decide, by decide⟩

/-- Claim C6 amended: in every execution of `get_headers` and of
`get_csrf_token`/`_fetch_csrf_token`, the access token is obtained or
validated strictly before the CSRF GET is issued — the access-token phase
appends only token POSTs to the trace, and the single CSRF GET is appended
after all of them — and the CSRF GET carries the Authorization header
`<token_type> <access_token>` holding exactly the access token the facade
stores at that moment (the value `get_access_token` just returned).  That
token need not be non-expired under the policy (see the counterexample);
when the access-token phase raises, no CSRF GET is issued at all. -/
theorem C6_token_before_csrf_get (c : Credentials) (env : Env)
    (s : SessionState) :
    (∀ t : String, ∀ s₁ : SessionState,
      get_access_token c env s = (.ok t, s₁) →
        s₁.tok.access_token = some t ∧
        s₁.trace = s.trace ++ s₁.trace.drop s.trace.length ∧
        (∀ ev ∈ s₁.trace.drop s.trace.length, ev.isCsrfGet = false) ∧
        (fetch_csrf_token c env s).2.trace =
          s₁.trace ++ [NetCall.csrfGet (c.token_type ++ " " ++ t)] ∧
        (get_headers c env s).2 = (get_csrf_token c env s₁).2 ∧
        (∀ r : Option String, ∀ s₂ : SessionState,
          get_csrf_token c env s₁ = (.ok r, s₂) →
            get_headers c env s =
              (.ok { authorization := c.token_type ++ " " ++ t,
                     x_csrf_token := r }, s₂))) ∧
    (∀ e : AuthFailure, ∀ s₁ : SessionState,
      get_access_token c env s = (.error e, s₁) →
        fetch_csrf_token c env s = (.error e, s₁) ∧
        get_headers c env s = (.error e, s₁) ∧
        (∀ ev ∈ s₁.trace.drop s.trace.length, ev.isCsrfGet = false)) := by
  have htr : ∀ s₁ : SessionState, (get_access_token c env s).2 = s₁ →
      s₁.trace = s.trace ++ s₁.trace.drop s.trace.length ∧
      (∀ ev ∈ s₁.trace.drop s.trace.length, ev.isCsrfGet = false) := by
    intro s₁ hs₁
    rcases get_access_token_trace_cases c env s with hc | hc <;> rw [hs₁] at hc
    · rw [hc]
      constructor
      · simp
      · simp [List.drop_length]
    · rw [hc]
      rw [List.drop_left]
      refine ⟨rfl, ?_⟩
      intro ev hev
      simp at hev
      rw [hev]
      rfl
  constructor
  · intro t s₁ h
    have hfacts := htr s₁ (by rw [h])
    refine ⟨get_access_token_ok_tok c env s t s₁ h, hfacts.1, hfacts.2,
      ?_, ?_, ?_⟩
    · cases hcs : raise_for_status_fails
          (env.csrfEndpoint s₁.getCount).status_code
      case false =>
        rw [fetch_csrf_token_ok_result c env s t s₁ h hcs]
      case true =>
        rw [fetch_csrf_token_status_error c env s t s₁ h hcs]
    · unfold get_headers
      rw [h]
      dsimp only
      rcases hg : get_csrf_token c env s₁ with ⟨r, s₂⟩
      cases r <;> rfl
    · intro r s₂ hg
      unfold get_headers
      rw [h]
      dsimp only
      rw [hg]
  · intro e s₁ h
    have hfacts := htr s₁ (by rw [h])
    refine ⟨fetch_csrf_token_access_error c env s e s₁ h, ?_, hfacts.2⟩
    unfold get_headers
    rw [h]

/-- Witness for C6 (amended), at `envStd` from the cached state: the
access-token phase is a cache hit returning "T0" (appending nothing to the
trace), and the CSRF GET goes out afterwards bearing "Bearer T0", producing
the headers. -/
theorem C6_token_before_csrf_get_witness :
    ((get_access_token cStd envStd state_fresh).2).tok.access_token
      = some "T0" ∧
    (fetch_csrf_token cStd envStd state_fresh).2.trace =
      (get_access_token cStd envStd state_fresh).2.trace ++
        [NetCall.csrfGet ("Bearer" ++ " " ++ "T0")] ∧
    get_headers cStd envStd state_fresh =
      (.ok { authorization := "Bearer" ++ " " ++ "T0",
             x_csrf_token := some "C" },
       (get_csrf_token cStd envStd
         (get_access_token cStd envStd state_fresh).2).2) := by
  have X := (C6_token_before_csrf_get cStd envStd state_fresh).1 "T0"
    (get_access_token cStd envStd state_fresh).2 rfl
  exact ⟨X.1, X.2.2.2.1, X.2.2.2.2.2 (some "C")
    (get_csrf_token cStd envStd
      (get_access_token cStd envStd state_fresh).2).2 rfl⟩

/-- Counterexample to claim C7 as stated: when the token endpoint answers
without `expires_in`, construction issues three network calls, not exactly
two — the CSRF fetch finds the token's expiry unknown (hence "expired") and
performs a second token POST before its GET. -/
theorem C7_counterexample :
    (construct cStd envNoExp).1 = .ok () ∧
    (construct cStd envNoExp).2.trace =
      [tokenPostOf cStd, tokenPostOf cStd, NetCall.csrfGet "Bearer T"] ∧
    (construct cStd envNoExp).2.trace.length ≠ 2 :=
  ⟨rfl, by decide, by decide⟩

/-- Claim C7 amended: construction always runs `_fetch_access_token` then
`_fetch_csrf_token` regardless of cache state (it starts from zeroed
fields); it issues exactly two network calls — the token POST then the CSRF
GET — provided the freshly fetched token is still inside its validity
window when the CSRF fetch validates it (its `expires_in` outlives the
five-minute buffer); otherwise an extra token POST precedes the GET (see
the counterexample).  Immediately after such a construction, a `get_headers`
call still inside the validity window issues zero additional network
calls. -/
theorem C7_construct_two_calls (c : Credentials) (env : Env)
    (t csrfv : String) (e : Int)
    (hok : raise_for_status_fails (env.tokenEndpoint 0).status_code = false)
    (htok : (env.tokenEndpoint 0).body.access_token = some t)
    (hexp : (env.tokenEndpoint 0).body.expires_in = some e)
    (hfresh : ¬ (env.clock 0 + e - refresh_buffer ≤ env.clock 1))
    (hcok : raise_for_status_fails (env.csrfEndpoint 0).status_code = false)
    (hres : (env.csrfEndpoint 0).body.result = some csrfv)
    (hfresh2 : ¬ (env.clock 0 + e - refresh_buffer ≤ env.clock 2)) :
    ∃ s₁, construct c env = (.ok (), s₁) ∧
      s₁.trace = [tokenPostOf c, NetCall.csrfGet (c.token_type ++ " " ++ t)] ∧
      s₁.tok = { access_token := some t,
                 token_expires := some (env.clock 0 + e),
                 csrf_token := some csrfv } ∧
      ∃ s₂, get_headers c env s₁ =
          (.ok { authorization := c.token_type ++ " " ++ t,
                 x_csrf_token := some csrfv }, s₂) ∧
        s₂.trace = s₁.trace := by
  have h1 : fetch_access_token c env initial_state =
      (.ok t,
       (⟨⟨some t, some (env.clock 0 + e), none⟩, 1, 1, 0,
         [tokenPostOf c]⟩ : SessionState)) := by
    rw [fetch_access_token_ok_expiry c env initial_state t e hok htok hexp]
    rfl
  have h2 : (is_token_expired env
      (⟨⟨some t, some (env.clock 0 + e), none⟩, 1, 1, 0,
        [tokenPostOf c]⟩ : SessionState)).1 = false := by
    unfold is_token_expired
    exact decide_eq_false hfresh
  have h3 : get_access_token c env
      (⟨⟨some t, some (env.clock 0 + e), none⟩, 1, 1, 0,
        [tokenPostOf c]⟩ : SessionState) =
      (.ok t,
       (⟨⟨some t, some (env.clock 0 + e), none⟩, 2, 1, 0,
         [tokenPostOf c]⟩ : SessionState)) := by
    rw [get_access_token_cache_hit c env _ t rfl h2]
    rfl
  have h4 : fetch_csrf_token c env
      (⟨⟨some t, some (env.clock 0 + e), none⟩, 1, 1, 0,
        [tokenPostOf c]⟩ : SessionState) =
      (.ok (some csrfv),
       (⟨⟨some t, some (env.clock 0 + e), some csrfv⟩, 2, 1, 1,
         [tokenPostOf c,
          NetCall.csrfGet (c.token_type ++ " " ++ t)]⟩ : SessionState)) := by
    rw [fetch_csrf_token_ok_result c env _ t _ h3 hcok, hres]
    rfl
  have h5 : construct c env =
      (.ok (),
       (⟨⟨some t, some (env.clock 0 + e), some csrfv⟩, 2, 1, 1,
         [tokenPostOf c,
          NetCall.csrfGet (c.token_type ++ " " ++ t)]⟩ : SessionState)) := by
    unfold construct auth
    rw [h1]
    dsimp only
    rw [h4]
  have h6 : (is_token_expired env
      (⟨⟨some t, some (env.clock 0 + e), some csrfv⟩, 2, 1, 1,
        [tokenPostOf c,
         NetCall.csrfGet (c.token_type ++ " " ++ t)]⟩ : SessionState)).1
      = false := by
    unfold is_token_expired
    exact decide_eq_false hfresh2
  have h7 : get_access_token c env
      (⟨⟨some t, some (env.clock 0 + e), some csrfv⟩, 2, 1, 1,
        [tokenPostOf c,
         NetCall.csrfGet (c.token_type ++ " " ++ t)]⟩ : SessionState) =
      (.ok t,
       (⟨⟨some t, some (env.clock 0 + e), some csrfv⟩, 3, 1, 1,
         [tokenPostOf c,
          NetCall.csrfGet (c.token_type ++ " " ++ t)]⟩ : SessionState)) := by
    rw [get_access_token_cache_hit c env _ t rfl h6]
    rfl
  have h8 : get_headers c env
      (⟨⟨some t, some (env.clock 0 + e), some csrfv⟩, 2, 1, 1,
        [tokenPostOf c,
         NetCall.csrfGet (c.token_type ++ " " ++ t)]⟩ : SessionState) =
      (.ok { authorization := c.token_type ++ " " ++ t,
             x_csrf_token := some csrfv },
       (⟨⟨some t, some (env.clock 0 + e), some csrfv⟩, 3, 1, 1,
         [tokenPostOf c,
          NetCall.csrfGet (c.token_type ++ " " ++ t)]⟩ : SessionState)) := by
    unfold get_headers
    rw [h7]
    dsimp only
    rw [get_csrf_token_cached c env _ csrfv rfl]
  exact ⟨_, h5, rfl, rfl, _, h8, rfl⟩

/-- Witness for C7 (amended): under `envStd` (expires_in 3600, steady clock
1000) construction makes exactly the token POST and the CSRF GET, and the
following `get_headers` call adds nothing to the trace. -/
theorem C7_construct_two_calls_witness :
    ∃ s₁, construct cStd envStd = (.ok (), s₁) ∧
      s₁.trace =
        [tokenPostOf cStd, NetCall.csrfGet ("Bearer" ++ " " ++ "T")] ∧
      s₁.tok = { access_token := some "T",
                 token_expires := some (envStd.clock 0 + 3600),
                 csrf_token := some "C" } ∧
      ∃ s₂, get_headers cStd envStd s₁ =
          (.ok { authorization := "Bearer" ++ " " ++ "T",
                 x_csrf_token := some "C" }, s₂) ∧
        s₂.trace = s₁.trace :=
  C7_construct_two_calls cStd envStd "T" "C" 3600 (by decide) (by decide)
    (by decide) (by decide) (by decide) (by decide) (by decide)

/-- Claim C8: when the oauth method is selected and required fields are
missing, the factory fails with a single `ValueError` — returned instead of
constructing any auth object, hence before any network call — whose message
names every missing field (each stripped name occurs in the message); in
particular, with both `oauth_client_secret` and `oauth_password` absent, the
message contains both "client_secret" and "password". -/
theorem C8_factory_lists_all_missing (config : SupersetInstanceConfig)
    (hm : config.auth_method = "oauth")
    (hmiss : oauth_missing config ≠ []) :
    create_superset_auth config = .error (oauth_missing_message config) ∧
    (∀ n ∈ oauth_missing config,
      str_has n (oauth_missing_message config) = true) ∧
    (is_blank config.oauth_client_secret = true →
     is_blank config.oauth_password = true →
      str_has "client_secret" (oauth_missing_message config) = true ∧
      str_has "password" (oauth_missing_message config) = true) := by
  have hE : (oauth_missing config).isEmpty = false := by
    cases hL : oauth_missing config
    · exact absurd hL hmiss
    · rfl
  refine ⟨?_, ?_, ?_⟩
  · unfold create_superset_auth
    rw [hm]
    simp [hE]
  · cases h1 : is_blank config.oauth_token_url <;>
    cases h2 : is_blank config.oauth_client_id <;>
    cases h3 : is_blank config.oauth_client_secret <;>
    cases h4 : is_blank config.oauth_username <;>
    cases h5 : is_blank config.oauth_password <;>
      simp_all [oauth_missing, oauth_required_fields, oauth_missing_message] <;>
      decide
  · intro hs hp
    cases h1 : is_blank config.oauth_token_url <;>
    cases h2 : is_blank config.oauth_client_id <;>
    cases h4 : is_blank config.oauth_username <;>
      simp_all [oauth_missing, oauth_required_fields, oauth_missing_message] <;>
      decide

/-- Witness for C8: a configuration with `oauth_client_secret` and
`oauth_password` both absent — the factory's error message contains both
field names. -/
theorem C8_factory_lists_all_missing_witness :
    create_superset_auth cfg_missing_two =
      .error (oauth_missing_message cfg_missing_two) ∧
    str_has "client_secret" (oauth_missing_message cfg_missing_two) = true ∧
    str_has "password" (oauth_missing_message cfg_missing_two) = true := by
  have X := C8_factory_lists_all_missing cfg_missing_two rfl (by decide)
  exact ⟨X.1, (X.2.2 (by decide) (by decide)).1,
    (X.2.2 (by decide) (by decide)).2⟩

end SupersetAuth
